import Mathlib

/-!
Verification development for the codeaza_backend expense-tracking service.

The Python sources under `src/backend/src` are shallowly embedded:

* SQLAlchemy rows (`models/db/category.py`, `models/db/expense.py`) become
  structures; the database is a pair of row lists threaded explicitly.
* Pydantic schemas (`models/schemas/*.py`) become structures with exactly the
  fields the schema declares.
* Each CRUD function (`repository/crud/*.py`) becomes a pure function that
  returns `Except PyErr` paired with the database/world state after the call
  (commit = adopting the new state, rollback / no commit = returning the old
  state).  Raising an exception is returning `.error`; the `except` clauses
  of the source are translated as matches on the error value, in source
  order.
* Each FastAPI route handler (`api/routes/*.py`) becomes a function that maps
  the CRUD outcome to an HTTP response, mirroring its `except` chain.
* External nondeterminism (uuid4, pendulum.now, file-write success) is an
  explicit `Env` parameter.

UUIDs are modelled as `Nat`, timestamps as `Nat`, dates as `Int`, the float
`amount` as `Rat` (the service only stores and copies it; no arithmetic is
performed on it).
-/

namespace Codeaza

/-- UUID values (uuid4 outputs, primary keys). -/
abbrev Uuid := Nat

/-- Naive timestamps (`pendulum.now().naive()`). -/
abbrev Timestamp := Nat

/-- Row of table `category` (src/models/db/category.py): `category_id`
primary key, `name` with a unique constraint, `is_active` defaulting true. -/
structure CategoryModel where
  category_id : Uuid
  name : String
  is_active : Bool
deriving Repr, DecidableEq

/-- Row of table `expenses` (src/models/db/expense.py). -/
structure ExpenseModel where
  expenses_id : Uuid
  user_id : Uuid
  category_id : Uuid
  subject : String
  expense_date : Int
  amount : Rat
  reimbursable : Bool
  description : Option String
  invoice_image : Option String
  employee : Option String
  updated_at : Timestamp
deriving Repr, DecidableEq

/-- Row of table `users` (src/models/db/user.py); the routes receive one from
the `get_current_user` dependency. -/
structure User where
  user_id : Uuid
  username : String
  is_active : Bool
deriving Repr, DecidableEq

/-- Pydantic schema `CategoryCreate` (src/models/schemas/category.py). -/
structure CategoryCreate where
  name : String
  is_active : Bool
deriving Repr, DecidableEq

/-- Pydantic schema `CategoryUpdate` (src/models/schemas/category.py). -/
structure CategoryUpdate where
  name : String
  is_active : Bool
deriving Repr, DecidableEq

/-- Pydantic schema `ExpenseCreate` (src/models/schemas/expense.py, lines
22-33). -/
structure ExpenseCreate where
  category_id : Uuid
  subject : String
  expense_date : Int
  amount : Rat
  reimbursable : Bool
  description : Option String
  employee : Option String
deriving Repr, DecidableEq

/-- Pydantic schema `ExpenseUpdate` (src/models/schemas/expense.py, lines
35-46): every field optional, and the schema declares exactly `category_id`,
`subject`, `expense_date`, `amount`, `reimbursable`, `description`,
`employee` — it declares NO `invoice_image` field. -/
structure ExpenseUpdate where
  category_id : Option Uuid
  subject : Option String
  expense_date : Option Int
  amount : Option Rat
  reimbursable : Option Bool
  description : Option String
  employee : Option String
deriving Repr, DecidableEq

/-- The field names `ExpenseUpdate` declares, in source order
(src/models/schemas/expense.py lines 40-46).  Pydantic raises
`AttributeError` when an undeclared attribute of a model instance is read,
so attribute access on an `ExpenseUpdate` succeeds exactly for these names. -/
def expenseUpdateFields : List String :=
  ["category_id", "subject", "expense_date", "amount", "reimbursable", "description", "employee"]

/-- Whether reading attribute `attr` on an `ExpenseUpdate` instance succeeds
(pydantic raises `AttributeError` otherwise). -/
def expenseUpdateHasAttr (attr : String) : Bool :=
  expenseUpdateFields.contains attr

/-- A FastAPI `UploadFile`; only its client-supplied `filename` matters to the
embedded logic (`invoice_image.filename`). -/
structure UploadFile where
  filename : String
deriving Repr, DecidableEq

/-- The persistent relational state: tables `category` and `expenses`. -/
structure DB where
  categories : List CategoryModel
  expenses : List ExpenseModel
deriving Repr, DecidableEq

/-- Persistent state incl. the invoice upload directory (the names of the
files stored under `config_env.INVOICE_UPLOAD_DIR`). -/
structure World where
  db : DB
  files : List String
deriving Repr, DecidableEq

/-- One request's draws from the external world: `gen` is the uuid4 hex text
used for the invoice filename, `newId` the uuid4 primary-key default, `now`
the `pendulum.now().naive()` reading, and `writeOk` whether the
`aiofiles` write of the invoice image succeeds. -/
structure Env where
  gen : String
  newId : Uuid
  now : Timestamp
  writeOk : Bool
deriving Repr, DecidableEq

/-- Python exception classes as they matter to the handlers in this code
base: `ValueError` (which pydantic's `ValidationError` subclasses),
`RuntimeError`, and FastAPI's `HTTPException` (a direct `Exception`
subclass, NOT a `ValueError`). -/
inductive PyErr where
  | valueError (msg : String)
  | runtimeError (msg : String)
  | httpException (status : Nat) (detail : String)
deriving Repr, DecidableEq

/-- What a route handler hands back to FastAPI: a body with a status code, or
an `HTTPException` with a status code and a detail string. -/
inductive Response (α : Type) where
  | ok (status : Nat) (body : α)
  | fail (status : Nat) (detail : String)
deriving Repr, DecidableEq

/-! ## Detail messages (src/utilities/messages/exceptions/http/exc_details.py) -/

/-- Detail for a missing category on GET by id. -/
def category_not_found (category_id : Uuid) : String :=
  s!"No category found with ID '{category_id}'. Please check the ID and try again."

/-- Detail for a missing category on GET by name. -/
def category_not_found_by_name (name : String) : String :=
  s!"No category found with the name '{name}'. Please check the name and try again."

/-- Detail for a duplicate category name on create. -/
def category_exists (name : String) : String :=
  s!"Category with name '{name}' already exists. Please choose a different name."

/-- Detail for a missing category on update. -/
def category_update_not_found (category_id : Uuid) : String :=
  s!"No category found with ID '{category_id}' for update. Please check the ID and try again."

/-- Detail for a missing category on the PATCH (mark-inactive) route. -/
def category_deletion_not_found (category_id : Uuid) : String :=
  s!"No category found with ID '{category_id}' for deletion. Please check the ID and try again."

/-- Generic detail for an unexpected failure creating a category. -/
def unexpected_error_create (name : String) : String :=
  s!"An unexpected error occurred while creating the category '{name}'. Please try again later."

/-- Generic detail for an unexpected failure retrieving a category by id. -/
def unexpected_error_retrieve_by_id (category_id : Uuid) : String :=
  s!"An unexpected error occurred while retrieving the category with ID '{category_id}'. Please try again later."

/-- Generic detail for an unexpected failure retrieving a category by name. -/
def unexpected_error_retrieve_by_name (name : String) : String :=
  s!"An unexpected error occurred while retrieving the category with name '{name}'. Please try again later."

/-- Generic detail for an unexpected failure updating a category. -/
def unexpected_error_update (category_id : Uuid) : String :=
  s!"An unexpected error occurred while updating the category with ID '{category_id}'. Please try again later."

/-- Generic detail for an unexpected failure on the PATCH route. -/
def unexpected_error_delete (category_id : Uuid) : String :=
  s!"An unexpected error occurred while deleting the category with ID '{category_id}'. Please try again later."

/-- Detail for a missing expense on GET by id. -/
def expense_not_found (expense_id : Uuid) : String :=
  s!"No expense found with ID '{expense_id}'. Please check the ID and try again."

/-- Detail for a missing expense on update. -/
def expense_update_not_found (expense_id : Uuid) : String :=
  s!"No expense found with ID '{expense_id}' for update. Please check the ID and try again."

/-- Detail for a missing expense on delete. -/
def expense_deletion_not_found (expense_id : Uuid) : String :=
  s!"No expense found with ID '{expense_id}' for deletion. Please check the ID and try again."

/-- Generic detail for an unexpected failure creating an expense. -/
def expense_unexpected_error_create (subject : String) : String :=
  s!"An unexpected error occurred while creating the expense '{subject}'. Please try again later."

/-- Generic detail for an unexpected failure retrieving an expense by id. -/
def expense_unexpected_error_retrieve_by_id (expense_id : Uuid) : String :=
  s!"An unexpected error occurred while retrieving the expense with ID '{expense_id}'. Please try again later."

/-- Generic detail for an unexpected failure updating an expense. -/
def expense_unexpected_error_update (expense_id : Uuid) : String :=
  s!"An unexpected error occurred while updating the expense with ID '{expense_id}'. Please try again later."

/-- Generic detail for an unexpected failure deleting an expense. -/
def expense_unexpected_error_delete (expense_id : Uuid) : String :=
  s!"An unexpected error occurred while deleting the expense with ID '{expense_id}'. Please try again later."

/-! ## os.path.splitext

`create_expense` computes `file_extension = os.path.splitext(filename)[1]`.
`posixpath.splitext` is embedded faithfully: with `sepIndex = p.rfind('/')`
and `dotIndex = p.rfind('.')`, when `dotIndex > sepIndex` and some character
strictly between `sepIndex` and `dotIndex` is not a dot, the path splits at
`dotIndex`; otherwise the extension is empty. -/

/-- The extension separator `extsep`. -/
def extsep : Char := '.'

/-- The posix path separator `sep`. -/
def pathsep : Char := '/'

/-- Index of the last occurrence of `c` in `cs`, as Python `str.rfind` finds
it (but as an `Option` instead of `-1`). -/
def rfindIdx (c : Char) : List Char → Option Nat
  | [] => none
  | x :: xs =>
    match rfindIdx c xs with
    | some j => some (j + 1)
    | none => if x = c then some 0 else none

/-- Python `str.rfind`: last index of `c`, or `-1` when absent. -/
def rfind (c : Char) (cs : List Char) : Int :=
  match rfindIdx c cs with
  | some j => (j : Int)
  | none => -1

/-- posixpath.splitext on a path given as a character list. -/
def splitext (p : List Char) : List Char × List Char :=
  let sepIndex := rfind pathsep p
  let dotIndex := rfind extsep p
  if sepIndex < dotIndex then
    let filenameIndex := (sepIndex + 1).toNat
    let seg := (p.drop filenameIndex).take (dotIndex.toNat - filenameIndex)
    if seg.any (fun ch => ch ≠ extsep) then
      (p.take dotIndex.toNat, p.drop dotIndex.toNat)
    else (p, [])
  else (p, [])

/-! ## Category CRUD (src/repository/crud/category.py) -/

/-- Replace the one fetched ORM row (the first row matching the id) by its
mutated version, leaving the rest of the table alone. -/
def replaceFirstCategory (l : List CategoryModel) (category_id : Uuid)
    (new : CategoryModel) : List CategoryModel :=
  match l with
  | [] => []
  | r :: rs =>
    if r.category_id == category_id then new :: rs
    else r :: replaceFirstCategory rs category_id new

/-- crud `get_category_by_name` (lines 70-92): `select ... filter(name ==
name)` then `.first()`; returns the optional row and raises nothing when it
is absent. -/
def get_category_by_name (db : DB) (name : String) : Option CategoryModel :=
  db.categories.find? (fun c => c.name == name)

/-- crud `create_category` (lines 12-35): adds the row and commits.  The
`name` column carries a unique constraint (src/models/db/category.py), so a
commit that duplicates a name raises, and the `except Exception` clause wraps
it into `RuntimeError("Error creating category")`; otherwise the new row is
committed and returned. -/
def create_category (db : DB) (category : CategoryCreate) (newId : Uuid) :
    (Except PyErr CategoryModel) × DB :=
  let db_category : CategoryModel :=
    { category_id := newId, name := category.name, is_active := category.is_active }
  if db.categories.any (fun c => c.name == category.name) then
    (.error (.runtimeError "Error creating category"), db)
  else
    (.ok db_category, { db with categories := db.categories ++ [db_category] })

/-- crud `get_category_by_id` (lines 38-67): `.first()` on the id filter;
absent → `raise ValueError("Category not found")`, re-raised as-is by the
`except ValueError` clause. -/
def get_category_by_id (db : DB) (category_id : Uuid) : Except PyErr CategoryModel :=
  match db.categories.find? (fun c => c.category_id == category_id) with
  | none => .error (.valueError "Category not found")
  | some category => .ok category

/-- crud `update_category` (lines 138-172): absent id → `ValueError`;
otherwise `name` and `is_active` are overwritten and committed (a commit
that collides with another row's unique `name` raises and is wrapped into
`RuntimeError`). -/
def update_category (db : DB) (category_id : Uuid) (category_update : CategoryUpdate) :
    (Except PyErr CategoryModel) × DB :=
  match db.categories.find? (fun c => c.category_id == category_id) with
  | none => (.error (.valueError "Category not found"), db)
  | some category =>
    let category' :=
      { category with name := category_update.name, is_active := category_update.is_active }
    if db.categories.any
        (fun r => r.category_id != category_id && r.name == category_update.name) then
      (.error (.runtimeError "Error updating category"), db)
    else
      (.ok category',
        { db with categories := replaceFirstCategory db.categories category_id category' })

/-- crud `mark_category_as_inactive` (lines 175-203): absent id →
`ValueError`; otherwise `is_active = False` is committed and `True`
returned.  The row is mutated in place, never deleted. -/
def mark_category_as_inactive (db : DB) (category_id : Uuid) :
    (Except PyErr Bool) × DB :=
  match db.categories.find? (fun c => c.category_id == category_id) with
  | none => (.error (.valueError "Category not found"), db)
  | some category =>
    (.ok true,
      { db with categories :=
          replaceFirstCategory db.categories category_id { category with is_active := false } })

/-! ## Expense CRUD (src/repository/crud/expense.py) -/

/-- Delete the one fetched ORM row (the first row matching the id). -/
def deleteFirstExpense (l : List ExpenseModel) (expense_id : Uuid) : List ExpenseModel :=
  match l with
  | [] => []
  | r :: rs =>
    if r.expenses_id == expense_id then rs
    else r :: deleteFirstExpense rs expense_id

/-- Replace the one fetched expense row by its mutated version. -/
def replaceFirstExpense (l : List ExpenseModel) (expense_id : Uuid)
    (new : ExpenseModel) : List ExpenseModel :=
  match l with
  | [] => []
  | r :: rs =>
    if r.expenses_id == expense_id then new :: rs
    else r :: replaceFirstExpense rs expense_id new

/-- crud `create_expense` (lines 17-73).  When an invoice file with a truthy
filename is supplied: `file_extension = os.path.splitext(filename)[1]`,
`image_filename = f"{uuid4()}{file_extension}"`, and the bytes are written
under the upload directory.  A failed write raises `RuntimeError` from the
inner `except IOError`, which the outer `except Exception` turns into a
rollback plus `RuntimeError("Error creating expense: ...")` — nothing is
committed.  Otherwise the row (with `updated_at = pendulum.now().naive()`
and `invoice_image` the generated name) is added and committed. -/
def create_expense (env : Env) (w : World) (user_id : Uuid) (expense : ExpenseCreate)
    (invoice_image : Option UploadFile) : (Except PyErr ExpenseModel) × World :=
  let fileStep : Except PyErr (Option String × List String) :=
    match invoice_image with
    | some f =>
      if f.filename ≠ "" then
        let file_extension := (splitext f.filename.data).2
        let image_filename := env.gen ++ String.mk file_extension
        if env.writeOk then .ok (some image_filename, w.files ++ [image_filename])
        else .error (.runtimeError "Error saving invoice image")
      else .ok (none, w.files)
    | none => .ok (none, w.files)
  match fileStep with
  | .error _ => (.error (.runtimeError "Error creating expense"), w)
  | .ok (image_filename, files') =>
    let db_expense : ExpenseModel :=
      { expenses_id := env.newId
        user_id := user_id
        category_id := expense.category_id
        subject := expense.subject
        expense_date := expense.expense_date
        amount := expense.amount
        reimbursable := expense.reimbursable
        description := expense.description
        invoice_image := image_filename
        employee := expense.employee
        updated_at := env.now }
    (.ok db_expense,
      { db := { w.db with expenses := w.db.expenses ++ [db_expense] }, files := files' })

/-- crud `get_expense_by_id` (lines 76-105): absent →
`ValueError("Expense not found")`, re-raised as-is. -/
def get_expense_by_id (db : DB) (expense_id : Uuid) : Except PyErr ExpenseModel :=
  match db.expenses.find? (fun e => e.expenses_id == expense_id) with
  | none => .error (.valueError "Expense not found")
  | some expense => .ok expense

/-- crud `get_expenses` (lines 108-129): the whole table, unfiltered. -/
def get_expenses (db : DB) : List ExpenseModel :=
  db.expenses

/-- crud `update_expense` (lines 132-182).  Takes exactly three parameters
`(db, expense_id, expense_update)`.  Absent id → `ValueError`.  Otherwise
the source assigns, in order, each payload field that `is not None`:
`subject`, `expense_date`, `amount`, `reimbursable`, `description` — then
line 166 reads `expense_update.invoice_image`.  `ExpenseUpdate` declares no
such field (see `expenseUpdateFields`), so pydantic raises
`AttributeError` there; the `except Exception` clause wraps it into
`RuntimeError("Error updating expense")` and nothing is committed.  The
branch guarded by `expenseUpdateHasAttr "invoice_image"` is what the rest of
the source would do if the attribute read succeeded (note it never assigns
`category_id`: the source has no line for that field). -/
def update_expense (env : Env) (w : World) (expense_id : Uuid)
    (expense_update : ExpenseUpdate) : (Except PyErr ExpenseModel) × World :=
  match w.db.expenses.find? (fun e => e.expenses_id == expense_id) with
  | none => (.error (.valueError "Expense not found"), w)
  | some expense =>
    let e1 := match expense_update.subject with
      | some v => { expense with subject := v }
      | none => expense
    let e2 := match expense_update.expense_date with
      | some v => { e1 with expense_date := v }
      | none => e1
    let e3 := match expense_update.amount with
      | some v => { e2 with amount := v }
      | none => e2
    let e4 := match expense_update.reimbursable with
      | some v => { e3 with reimbursable := v }
      | none => e3
    let e5 := match expense_update.description with
      | some v => { e4 with description := some v }
      | none => e4
    if expenseUpdateHasAttr "invoice_image" then
      let e6 := e5
      let e7 := match expense_update.employee with
        | some v => { e6 with employee := some v }
        | none => e6
      let e8 := { e7 with updated_at := env.now }
      (.ok e8,
        { w with db :=
            { w.db with expenses := replaceFirstExpense w.db.expenses expense_id e8 } })
    else
      (.error (.runtimeError "Error updating expense"), w)

/-- crud `delete_expense` (lines 185-216): absent → `ValueError`; otherwise
the fetched row is deleted and the deletion committed, returning `True`. -/
def delete_expense (w : World) (expense_id : Uuid) : (Except PyErr Bool) × World :=
  match w.db.expenses.find? (fun e => e.expenses_id == expense_id) with
  | none => (.error (.valueError "Expense not found"), w)
  | some _ =>
    (.ok true,
      { w with db :=
          { w.db with expenses := deleteFirstExpense w.db.expenses expense_id } })

/-! ## Category routes (src/api/routes/category.py)

Each handler's `try` body is translated into an `Except PyErr` value, and its
`except` chain into a match on that value, clause by clause in source order.
An `HTTPException` raised inside the `try` body is itself an exception
flowing through that chain: it is not a `ValueError`, so only the blanket
`except Exception` clause can catch it. -/

/-- CategorySchema.from_orm (pydantic validation of the object handed to it):
validating `None` raises `ValidationError`, which subclasses `ValueError`. -/
def categorySchema_from_orm : Option CategoryModel → Except PyErr CategoryModel
  | some c => .ok c
  | none => .error (.valueError "1 validation error for Category")

/-- POST /categories (lines 47-92).  The `try` body pre-queries by name and,
on a hit, raises `HTTPException(400, category_exists ...)`; that exception is
caught by the handler's own `except Exception` clause (it is not a
`ValueError`), which re-raises `HTTPException(500, unexpected_error_create
...)`.  Otherwise `create_category` runs and the 201 body is returned. -/
def create_category_endpoint (newId : Uuid) (db : DB) (category : CategoryCreate) :
    Response CategoryModel × DB :=
  let attempt : (Except PyErr CategoryModel) × DB :=
    match get_category_by_name db category.name with
    | some _ => (.error (.httpException 400 (category_exists category.name)), db)
    | none => create_category db category newId
  match attempt with
  | (.ok row, db') => (.ok 201 row, db')
  | (.error (.valueError msg), db') => (.fail 400 msg, db')
  | (.error _, db') => (.fail 500 (unexpected_error_create category.name), db')

/-- GET /categories/{category_id} (lines 128-168). -/
def get_category_endpoint (db : DB) (category_id : Uuid) : Response CategoryModel :=
  match get_category_by_id db category_id with
  | .ok c => .ok 200 c
  | .error (.valueError _) => .fail 404 (category_not_found category_id)
  | .error _ => .fail 500 (unexpected_error_retrieve_by_id category_id)

/-- GET /categories/by-name/{name} (lines 207-247): the crud lookup returns
the optional row without raising; `CategorySchema.from_orm` then validates
it, and validating `None` raises a `ValidationError` (a `ValueError`), which
the `except ValueError` clause maps to 404. -/
def get_category_by_name_endpoint (db : DB) (name : String) : Response CategoryModel :=
  match categorySchema_from_orm (get_category_by_name db name) with
  | .ok c => .ok 200 c
  | .error (.valueError _) => .fail 404 (category_not_found_by_name name)
  | .error _ => .fail 500 (unexpected_error_retrieve_by_name name)

/-- PUT /categories/{category_id} (lines 250-293). -/
def update_category_endpoint (db : DB) (category_id : Uuid)
    (category_update : CategoryUpdate) : Response CategoryModel × DB :=
  match update_category db category_id category_update with
  | (.ok c, db') => (.ok 200 c, db')
  | (.error (.valueError _), db') => (.fail 404 (category_update_not_found category_id), db')
  | (.error _, db') => (.fail 500 (unexpected_error_update category_id), db')

/-- PATCH /categories/{category_id} (lines 296-335): marks the category
inactive; the 200 body carries the boolean `result`. -/
def mark_category_as_inactive_endpoint (db : DB) (category_id : Uuid) :
    Response Bool × DB :=
  match mark_category_as_inactive db category_id with
  | (.ok result, db') => (.ok 200 result, db')
  | (.error (.valueError _), db') => (.fail 404 (category_deletion_not_found category_id), db')
  | (.error _, db') => (.fail 500 (unexpected_error_delete category_id), db')

/-! ## Expense routes (src/api/routes/expense.py)

Every expense route depends on `get_current_user`; the resolved `User` is a
parameter here.  The JSON-string form fields are taken already parsed (the
malformed-JSON 400 paths are upstream of everything these claims state). -/

/-- fastapi_pagination `paginate(items, params)`: the page slice of the full
list under `Params(page, size)`. -/
def paginate (items : List ExpenseModel) (page size : Nat) : List ExpenseModel :=
  (items.drop ((page - 1) * size)).take size

/-- POST /expenses (lines 29-90). -/
def create_expense_endpoint (env : Env) (w : World) (expense : ExpenseCreate)
    (current_user : User) (invoice_image : Option UploadFile) :
    Response ExpenseModel × World :=
  match create_expense env w current_user.user_id expense invoice_image with
  | (.ok row, w') => (.ok 201 row, w')
  | (.error (.valueError msg), w') => (.fail 400 msg, w')
  | (.error _, w') => (.fail 500 (expense_unexpected_error_create expense.subject), w')

/-- GET /expenses (lines 93-127). -/
def list_expenses_endpoint (w : World) (page size : Nat) (current_user : User) :
    Response (List ExpenseModel) :=
  .ok 200 (paginate (get_expenses w.db) page size)

/-- GET /expenses/{expense_id} (lines 130-174). -/
def get_expense_endpoint (w : World) (expense_id : Uuid) (current_user : User) :
    Response ExpenseModel :=
  match get_expense_by_id w.db expense_id with
  | .ok e => .ok 200 e
  | .error (.valueError _) => .fail 404 (expense_not_found expense_id)
  | .error _ => .fail 500 (expense_unexpected_error_retrieve_by_id expense_id)

/-- Number of parameters `def update_expense(db, expense_id, expense_update)`
declares (src/repository/crud/expense.py line 132), none with a default. -/
def update_expense_paramCount : Nat := 3

/-- Number of positional arguments the route passes in
`update_expense(db, expense_id, expense_update_obj, invoice_image)`
(src/api/routes/expense.py line 210). -/
def update_expense_callArgCount : Nat := 4

/-- PUT /expenses/{expense_id} (lines 177-229).  The handler calls
`update_expense(db, expense_id, expense_update_obj, invoice_image)` — four
positional arguments against a three-parameter function, which raises
`TypeError` at the call.  `TypeError` is neither a `ValueError` nor a
`json.JSONDecodeError`, so the blanket `except Exception` clause answers
500 with the generic update detail.  The guarded branch is what the handler
would do if the arities agreed. -/
def update_expense_endpoint (env : Env) (w : World) (expense_id : Uuid)
    (expense_update : ExpenseUpdate) (current_user : User)
    (invoice_image : Option UploadFile) : Response ExpenseModel × World :=
  if update_expense_callArgCount = update_expense_paramCount then
    match update_expense env w expense_id expense_update with
    | (.ok e, w') => (.ok 200 e, w')
    | (.error (.valueError _), w') => (.fail 404 (expense_update_not_found expense_id), w')
    | (.error _, w') => (.fail 500 (expense_unexpected_error_update expense_id), w')
  else
    (.fail 500 (expense_unexpected_error_update expense_id), w)

/-- DELETE /expenses/{expense_id} (lines 232-275). -/
def delete_expense_endpoint (w : World) (expense_id : Uuid) (current_user : User) :
    Response Bool × World :=
  match delete_expense w expense_id with
  | (.ok result, w') => (.ok 200 result, w')
  | (.error (.valueError _), w') => (.fail 404 (expense_deletion_not_found expense_id), w')
  | (.error _, w') => (.fail 500 (expense_unexpected_error_delete expense_id), w')

/-! ## Helper lemmas -/

/-- Replacing a row by id keeps the table's length. -/
theorem length_replaceFirstCategory (l : List CategoryModel) (category_id : Uuid)
    (new : CategoryModel) : (replaceFirstCategory l category_id new).length = l.length := by
  induction l with
  | nil => rfl
  | cons r rs ih =>
    unfold replaceFirstCategory
    by_cases hr : (r.category_id == category_id) = true
    · simp [hr]
    · simp only [Bool.not_eq_true] at hr
      simp [hr, ih]

/-- After replacing the first row matching `category_id` by `new` (itself
carrying that id), the first row matching `category_id` is `new`. -/
theorem find?_replaceFirstCategory (l : List CategoryModel) (category_id : Uuid)
    (new c : CategoryModel) (hnew : new.category_id = category_id)
    (h : l.find? (fun r => r.category_id == category_id) = some c) :
    (replaceFirstCategory l category_id new).find? (fun r => r.category_id == category_id) =
      some new := by
  induction l with
  | nil => simp at h
  | cons r rs ih =>
    unfold replaceFirstCategory
    by_cases hr : (r.category_id == category_id) = true
    · simp [hr, List.find?_cons, hnew]
    · simp only [Bool.not_eq_true] at hr
      rw [List.find?_cons_of_neg _ (by simp [hr])] at h
      simp only [hr, Bool.false_eq_true, if_false]
      rw [List.find?_cons_of_neg _ (by simp [hr])]
      exact ih h

/-- A row found by id carries that id. -/
theorem category_id_of_find? {l : List CategoryModel} {category_id : Uuid}
    {c : CategoryModel} (h : l.find? (fun r => r.category_id == category_id) = some c) :
    c.category_id = category_id := by
  have := List.find?_some h
  simpa using this

/-- The row created by `create_expense` always carries the authenticated
caller's `user_id`: the only place the routes use the current user. -/
theorem create_expense_result_user_id (env : Env) (w : World) (user_id : Uuid)
    (expense : ExpenseCreate) (invoice_image : Option UploadFile)
    (row : ExpenseModel) (w' : World)
    (h : create_expense env w user_id expense invoice_image = (.ok row, w')) :
    row.user_id = user_id := by
  unfold create_expense at h
  rcases invoice_image with _ | f
  · simp at h
    obtain ⟨h1, -⟩ := h
    rw [← h1]
  · by_cases hf : f.filename = ""
    · simp [hf] at h
      obtain ⟨h1, -⟩ := h
      rw [← h1]
    · by_cases hw : env.writeOk
      · simp [hf, hw] at h
        obtain ⟨h1, -⟩ := h
        rw [← h1]
      · simp [hf, hw] at h

/-! ## Claims -/

/-- Database holding one category named Travel, for the C1 failing input. -/
def travelDB : DB :=
  { categories := [{ category_id := 1, name := "Travel", is_active := true }], expenses := [] }

/-- C1: the claim says creating a category whose name is already stored
answers 400 with the already-exists detail.  The code does fail the request,
but the `HTTPException(400, category_exists ...)` it raises inside the `try`
block is caught by the handler's own blanket `except Exception` clause (an
`HTTPException` is not a `ValueError`) and re-raised as a 500 with the
generic unexpected-error detail — which differs from the already-exists
detail. -/
theorem C1_duplicate_create_answers_500_not_400 :
    create_category_endpoint 2 travelDB { name := "Travel", is_active := true } =
      (.fail 500 (unexpected_error_create "Travel"), travelDB) ∧
    unexpected_error_create "Travel" ≠ category_exists "Travel" := by
  exact ⟨rfl, by decide⟩

/-- C2: the PUT /expenses/{id} handler can never answer 200 or 404: it calls
`update_expense` with four positional arguments while the function takes
three, so every request — whatever the stored state, payload, user or file —
raises `TypeError` and is answered 500 with the generic update detail. -/
theorem C2_put_expense_always_500 (env : Env) (w : World) (expense_id : Uuid)
    (expense_update : ExpenseUpdate) (current_user : User)
    (invoice_image : Option UploadFile) :
    update_expense_endpoint env w expense_id expense_update current_user invoice_image =
      (.fail 500 (expense_unexpected_error_update expense_id), w) := by
  simp [update_expense_endpoint, update_expense_callArgCount, update_expense_paramCount]

/-- C3: for every stored expense and every payload, `update_expense` never
returns the merged entity: line 166 reads `expense_update.invoice_image`,
an attribute the `ExpenseUpdate` schema does not declare, so pydantic raises
`AttributeError` and the blanket handler wraps it into
`RuntimeError("Error updating expense")`; nothing is committed and the state
is returned unchanged. -/
theorem C3_update_never_merges (env : Env) (w : World) (expense_id : Uuid)
    (u : ExpenseUpdate) (e : ExpenseModel)
    (h : w.db.expenses.find? (fun r => r.expenses_id == expense_id) = some e) :
    update_expense env w expense_id u =
      (.error (.runtimeError "Error updating expense"), w) := by
  unfold update_expense
  rw [h]
  have hattr : expenseUpdateHasAttr "invoice_image" = false := by decide
  simp [hattr]

/-- Expense row stored for the C3 witness. -/
def expC3 : ExpenseModel :=
  { expenses_id := 1, user_id := 2, category_id := 3, subject := "Flight",
    expense_date := 0, amount := 250, reimbursable := false, description := none,
    invoice_image := none, employee := none, updated_at := 10 }

/-- World stored for the C3 witness. -/
def wC3 : World := { db := { categories := [], expenses := [expC3] }, files := [] }

/-- Payload for the C3 witness: subject and category_id explicitly present. -/
def updC3 : ExpenseUpdate :=
  { category_id := some 9, subject := some "Taxi", expense_date := none, amount := none,
    reimbursable := none, description := none, employee := none }

/-- Witness for C3 at a concrete stored expense and payload. -/
theorem C3_update_never_merges_witness :
    update_expense { gen := "", newId := 0, now := 99, writeOk := true } wC3 1 updC3 =
      (.error (.runtimeError "Error updating expense"), wC3) :=
  C3_update_never_merges _ wC3 1 updC3 expC3 rfl

/-- C4: when the invoice-file write fails during expense creation, the whole
operation aborts with the wrapped unexpected error, the state (rows and
files) is returned unchanged, and the route answers 500. -/
theorem C4_failed_write_aborts_whole_operation (env : Env) (w : World)
    (expense : ExpenseCreate) (current_user : User) (f : UploadFile)
    (hname : f.filename ≠ "") (hfail : env.writeOk = false) :
    create_expense env w current_user.user_id expense (some f) =
      (.error (.runtimeError "Error creating expense"), w) ∧
    create_expense_endpoint env w expense current_user (some f) =
      (.fail 500 (expense_unexpected_error_create expense.subject), w) := by
  have hcrud : create_expense env w current_user.user_id expense (some f) =
      (.error (.runtimeError "Error creating expense"), w) := by
    unfold create_expense
    simp [hname, hfail]
  exact ⟨hcrud, by unfold create_expense_endpoint; rw [hcrud]⟩

/-- Witness for C4: a failed write of `photo.png` leaves the world as it
was and answers 500. -/
theorem C4_failed_write_aborts_whole_operation_witness :
    create_expense { gen := "f47ac10b", newId := 7, now := 100, writeOk := false } wC3 2
        { category_id := 3, subject := "Flight", expense_date := 0, amount := 250,
          reimbursable := false, description := none, employee := none }
        (some { filename := "photo.png" }) =
      (.error (.runtimeError "Error creating expense"), wC3) :=
  (C4_failed_write_aborts_whole_operation _ wC3 _
    { user_id := 2, username := "iris", is_active := true } _ (by decide) rfl).1

/-- C5: marking a stored category inactive commits `is_active = false` and
returns `True`, but never removes the row: `get_category_by_id` on the new
state still succeeds, returns the category with `is_active = false`, and the
table keeps its length. -/
theorem C5_mark_inactive_is_soft (db : DB) (category_id : Uuid) (c : CategoryModel)
    (h : db.categories.find? (fun r => r.category_id == category_id) = some c) :
    ∃ db', mark_category_as_inactive db category_id = (.ok true, db') ∧
      get_category_by_id db' category_id = .ok { c with is_active := false } ∧
      db'.categories.length = db.categories.length := by
  refine ⟨{ db with categories :=
      replaceFirstCategory db.categories category_id { c with is_active := false } },
    ?_, ?_, ?_⟩
  · unfold mark_category_as_inactive
    rw [h]
  · unfold get_category_by_id
    dsimp only
    rw [find?_replaceFirstCategory db.categories category_id
      { c with is_active := false } c
      (show ({ c with is_active := false } : CategoryModel).category_id = category_id from
        category_id_of_find? (c := c) h) h]
  · exact length_replaceFirstCategory _ _ _

/-- Witness for C5 on a one-row table. -/
theorem C5_mark_inactive_is_soft_witness :
    ∃ db', mark_category_as_inactive travelDB 1 = (.ok true, db') ∧
      get_category_by_id db' 1 =
        .ok { category_id := 1, name := "Travel", is_active := false } ∧
      db'.categories.length = travelDB.categories.length :=
  C5_mark_inactive_is_soft travelDB 1 { category_id := 1, name := "Travel", is_active := true } rfl

/-- C6: for a category id not in storage, `get_category_by_id`,
`update_category` and `mark_category_as_inactive` all fail with the typed
`ValueError("Category not found")` — distinct from the `runtimeError`
wrapping unexpected failures — and the three routes answer 404. -/
theorem C6_absent_category_is_not_found (db : DB) (category_id : Uuid)
    (u : CategoryUpdate)
    (h : db.categories.find? (fun r => r.category_id == category_id) = none) :
    get_category_by_id db category_id = .error (.valueError "Category not found") ∧
    update_category db category_id u = (.error (.valueError "Category not found"), db) ∧
    mark_category_as_inactive db category_id =
      (.error (.valueError "Category not found"), db) ∧
    get_category_endpoint db category_id = .fail 404 (category_not_found category_id) ∧
    update_category_endpoint db category_id u =
      (.fail 404 (category_update_not_found category_id), db) ∧
    mark_category_as_inactive_endpoint db category_id =
      (.fail 404 (category_deletion_not_found category_id), db) := by
  refine ⟨?_, ?_, ?_, ?_, ?_, ?_⟩ <;>
    simp [get_category_by_id, update_category, mark_category_as_inactive,
      get_category_endpoint, update_category_endpoint,
      mark_category_as_inactive_endpoint, h]

/-- Witness for C6 on an empty table. -/
theorem C6_absent_category_is_not_found_witness :
    get_category_by_id { categories := [], expenses := [] } 42 =
      .error (.valueError "Category not found") ∧
    update_category { categories := [], expenses := [] } 42 { name := "Food", is_active := true } =
      (.error (.valueError "Category not found"), { categories := [], expenses := [] }) ∧
    mark_category_as_inactive { categories := [], expenses := [] } 42 =
      (.error (.valueError "Category not found"), { categories := [], expenses := [] }) ∧
    get_category_endpoint { categories := [], expenses := [] } 42 =
      .fail 404 (category_not_found 42) ∧
    update_category_endpoint { categories := [], expenses := [] } 42
        { name := "Food", is_active := true } =
      (.fail 404 (category_update_not_found 42), { categories := [], expenses := [] }) ∧
    mark_category_as_inactive_endpoint { categories := [], expenses := [] } 42 =
      (.fail 404 (category_deletion_not_found 42), { categories := [], expenses := [] }) :=
  C6_absent_category_is_not_found _ 42 _ rfl

/-- C8: when no stored category has the requested name, the manager-level
lookup returns `none` without raising, and the GET by-name route answers
404 with the not-found-by-name detail (pydantic validation of `None` raises
a `ValueError`, which the handler's `except ValueError` clause maps to 404
— never 200 and never 500). -/
theorem C8_by_name_absent_is_404 (db : DB) (name : String)
    (h : db.categories.find? (fun c => c.name == name) = none) :
    get_category_by_name db name = none ∧
    get_category_by_name_endpoint db name =
      .fail 404 (category_not_found_by_name name) := by
  constructor <;>
    simp [get_category_by_name, get_category_by_name_endpoint,
      categorySchema_from_orm, h]

/-- Witness for C8: the Travel table holds no category named Food. -/
theorem C8_by_name_absent_is_404_witness :
    get_category_by_name travelDB "Food" = none ∧
    get_category_by_name_endpoint travelDB "Food" =
      .fail 404 (category_not_found_by_name "Food") :=
  C8_by_name_absent_is_404 travelDB "Food" (by decide)

/-- C9: the authenticated user resolved by `get_current_user` is ignored by
the expense read, list, update and delete routes — any two users get
identical results on identical state — and influences creation only by
stamping the new row's `user_id`. -/
theorem C9_user_blind_except_creation :
    (∀ (w : World) (expense_id : Uuid) (u₁ u₂ : User),
        get_expense_endpoint w expense_id u₁ = get_expense_endpoint w expense_id u₂) ∧
    (∀ (w : World) (page size : Nat) (u₁ u₂ : User),
        list_expenses_endpoint w page size u₁ = list_expenses_endpoint w page size u₂) ∧
    (∀ (env : Env) (w : World) (expense_id : Uuid) (upd : ExpenseUpdate)
        (inv : Option UploadFile) (u₁ u₂ : User),
        update_expense_endpoint env w expense_id upd u₁ inv =
          update_expense_endpoint env w expense_id upd u₂ inv) ∧
    (∀ (w : World) (expense_id : Uuid) (u₁ u₂ : User),
        delete_expense_endpoint w expense_id u₁ = delete_expense_endpoint w expense_id u₂) ∧
    (∀ (env : Env) (w : World) (u : User) (expense : ExpenseCreate)
        (inv : Option UploadFile) (row : ExpenseModel) (w' : World),
        create_expense_endpoint env w expense u inv = (.ok 201 row, w') →
          row.user_id = u.user_id) := by
  refine ⟨fun _ _ _ _ => rfl, fun _ _ _ _ _ => rfl, fun _ _ _ _ _ _ _ => rfl,
    fun _ _ _ _ => rfl, ?_⟩
  intro env w u expense inv row w' h
  unfold create_expense_endpoint at h
  rcases hc : create_expense env w u.user_id expense inv with ⟨res, w₂⟩
  rw [hc] at h
  rcases res with err | r
  · rcases err with msg | msg | ⟨st, d⟩
    · exact nomatch h
    · exact nomatch h
    · exact nomatch h
  · have h' : ((Response.ok 201 r : Response ExpenseModel), w₂) =
        (Response.ok 201 row, w') := h
    injection h' with hA hB
    injection hA with hS hBody
    rw [← hBody]
    exact create_expense_result_user_id env w u.user_id expense inv r w₂ hc

/-- C10: whenever `delete_expense` or `mark_category_as_inactive` returns
normally, the boolean it returns is `True`: no code path returns `False`. -/
theorem C10_success_flag_always_true :
    (∀ (w : World) (expense_id : Uuid) (b : Bool) (w' : World),
        delete_expense w expense_id = (.ok b, w') → b = true) ∧
    (∀ (db : DB) (category_id : Uuid) (b : Bool) (db' : DB),
        mark_category_as_inactive db category_id = (.ok b, db') → b = true) := by
  constructor
  · intro w expense_id b w' h
    unfold delete_expense at h
    rcases hf : w.db.expenses.find? (fun e => e.expenses_id == expense_id) with _ | e <;>
      rw [hf] at h <;> simp at h
    exact h.1
  · intro db category_id b db' h
    unfold mark_category_as_inactive at h
    rcases hf : db.categories.find? (fun c => c.category_id == category_id) with _ | c <;>
      rw [hf] at h <;> simp at h
    exact h.1

/-! ## splitext lemmas for C7 -/

/-- `rfindIdx` answers `none` exactly for characters not in the list. -/
theorem rfindIdx_eq_none_iff {c : Char} {cs : List Char} :
    rfindIdx c cs = none ↔ c ∉ cs := by
  induction cs with
  | nil => simp [rfindIdx]
  | cons x xs ih =>
    simp only [rfindIdx]
    cases hx : rfindIdx c xs with
    | some j =>
      have hmem : c ∈ xs := by
        by_contra hnm
        rw [ih.mpr hnm] at hx
        exact absurd hx (by simp)
      simp [List.mem_cons, hmem]
    | none =>
      have hnm : c ∉ xs := ih.mp hx
      by_cases hxc : x = c
      · simp [hxc]
      · rw [if_neg hxc]
        simp only [List.mem_cons, true_iff]
        rintro (h1 | h2)
        · exact hxc h1.symm
        · exact hnm h2

/-- The character at the index `rfindIdx` finds is `c`, and `c` does not
occur after it. -/
theorem rfindIdx_drop {c : Char} : ∀ {cs : List Char} {i : Nat},
    rfindIdx c cs = some i →
    cs.drop i = c :: cs.drop (i + 1) ∧ c ∉ cs.drop (i + 1) := by
  intro cs
  induction cs with
  | nil => intro i h; simp [rfindIdx] at h
  | cons x xs ih =>
    intro i h
    simp only [rfindIdx] at h
    cases hx : rfindIdx c xs with
    | some j =>
      rw [hx] at h
      injection h with hi
      subst hi
      obtain ⟨h1, h2⟩ := ih hx
      refine ⟨?_, ?_⟩
      · rw [List.drop_succ_cons, List.drop_succ_cons]
        exact h1
      · rw [List.drop_succ_cons]
        exact h2
    | none =>
      rw [hx] at h
      by_cases hxc : x = c
      · rw [if_pos hxc] at h
        injection h with hi
        subst hi
        subst hxc
        exact ⟨by simp, by simpa using rfindIdx_eq_none_iff.mp hx⟩
      · rw [if_neg hxc] at h
        exact absurd h (by simp)

/-- When `c` occurs neither in `g` nor in `rest`, the last `c` of
`g ++ c :: rest` sits at index `g.length`. -/
theorem rfindIdx_append_cons {c : Char} (g rest : List Char)
    (hg : c ∉ g) (hr : c ∉ rest) :
    rfindIdx c (g ++ c :: rest) = some g.length := by
  induction g with
  | nil =>
    simp only [List.nil_append, rfindIdx, rfindIdx_eq_none_iff.mpr hr]
    simp
  | cons x g' ih =>
    have hcg : c ∉ g' := fun hmem => hg (List.mem_cons_of_mem _ hmem)
    have hxc : ¬ x = c := by
      intro hcontra
      apply hg
      rw [← hcontra]
      exact List.mem_cons_self x g'
    rw [List.cons_append]
    simp only [rfindIdx, List.append_eq]
    rw [ih hcg]
    simp [List.length_cons]

/-- `rfind` never answers below `-1`. -/
theorem rfind_neg_one_le (c : Char) (cs : List Char) : -1 ≤ rfind c cs := by
  unfold rfind
  split <;> omega

/-- splitext reassembles the path: root ++ extension = path. -/
theorem splitext_fst_append_snd (p : List Char) :
    (splitext p).1 ++ (splitext p).2 = p := by
  unfold splitext
  dsimp only
  split
  · split
    · exact List.take_append_drop _ p
    · simp
  · simp

/-- The extension splitext computes is empty, or a dot followed by text that
holds no further dot and no path separator. -/
theorem splitext_snd_shape (p : List Char) :
    (splitext p).2 = [] ∨
      ∃ rest, (splitext p).2 = extsep :: rest ∧ extsep ∉ rest ∧ pathsep ∉ rest := by
  unfold splitext
  dsimp only
  split
  case isFalse => left; rfl
  case isTrue hlt =>
    split
    case isFalse => left; rfl
    case isTrue hseg =>
      right
      cases hdot : rfindIdx extsep p with
      | none =>
        exfalso
        rw [show rfind extsep p = -1 from by rw [rfind, hdot]] at hlt
        have := rfind_neg_one_le pathsep p
        omega
      | some i =>
        obtain ⟨hd1, hd2⟩ := rfindIdx_drop hdot
        have hre : rfind extsep p = (i : Int) := by rw [rfind, hdot]
        have htn : (rfind extsep p).toNat = i := by rw [hre]; exact Int.toNat_ofNat i
        refine ⟨p.drop (i + 1), ?_, hd2, ?_⟩
        · rw [htn]
          exact hd1
        · cases hps : rfindIdx pathsep p with
          | none =>
            intro hmem
            exact (rfindIdx_eq_none_iff.mp hps) (List.drop_subset _ _ hmem)
          | some s =>
            have hs2 := (rfindIdx_drop hps).2
            have hsi : s < i := by
              rw [hre, show rfind pathsep p = (s : Int) from by rw [rfind, hps]] at hlt
              exact_mod_cast hlt
            intro hmem
            apply hs2
            have hdd : p.drop (i + 1) = (p.drop (s + 1)).drop ((i + 1) - (s + 1)) := by
              rw [List.drop_drop]
              congr 1
              omega
            rw [hdd] at hmem
            exact List.drop_subset _ _ hmem

/-- Appending a dot-free, separator-free, nonempty stem to an extension of
splitext shape splits back into exactly that stem and extension: the uuid4
name keeps the original extension. -/
theorem splitext_gen_append (g e : List Char)
    (hgd : extsep ∉ g) (hgs : pathsep ∉ g) (hgne : g ≠ [])
    (he : e = [] ∨ ∃ rest, e = extsep :: rest ∧ extsep ∉ rest ∧ pathsep ∉ rest) :
    splitext (g ++ e) = (g, e) := by
  rcases he with rfl | ⟨rest, rfl, hrd, hrs⟩
  · rw [List.append_nil]
    unfold splitext
    dsimp only
    rw [show rfind extsep g = -1 from by rw [rfind, rfindIdx_eq_none_iff.mpr hgd]]
    rw [if_neg (by have := rfind_neg_one_le pathsep g; omega)]
  · have hdot : rfindIdx extsep (g ++ extsep :: rest) = some g.length :=
      rfindIdx_append_cons g rest hgd hrd
    have hsepn : rfindIdx pathsep (g ++ extsep :: rest) = none := by
      apply rfindIdx_eq_none_iff.mpr
      intro hmem
      rcases List.mem_append.mp hmem with h1 | h2
      · exact hgs h1
      · rcases List.mem_cons.mp h2 with h3 | h4
        · exact absurd h3 (by decide)
        · exact hrs h4
    unfold splitext
    dsimp only
    rw [show rfind extsep (g ++ extsep :: rest) = (g.length : Int) from by rw [rfind, hdot]]
    rw [show rfind pathsep (g ++ extsep :: rest) = -1 from by rw [rfind, hsepn]]
    rw [if_pos (by omega)]
    rw [show ((-1 : Int) + 1).toNat = 0 from by decide, Int.toNat_ofNat]
    simp only [List.drop_zero, Nat.sub_zero]
    have hany : g.any (fun ch => ch ≠ extsep) = true := by
      rcases g with _ | ⟨y, g'⟩
      · exact absurd rfl hgne
      · have hy : ¬ y = extsep := by
          intro hcontra
          apply hgd
          rw [← hcontra]
          exact List.mem_cons_self y g'
        simp [List.any_cons, hy]
    simp only [List.take_left, List.drop_left]
    rw [if_pos hany]

/-- C7: creating an expense with an attached invoice file (truthy filename)
stores the row whose `invoice_image` is the freshly generated name — the
uuid4 text with the original extension appended.  Under the structural
properties of uuid4 text (no dot, no separator, nonempty) and the freshness
of the draw (the uuid4 text is not the original file's stem), the generated
name differs from the uploaded file's name and its extension — as
`os.path.splitext` computes it — equals the original file's extension. -/
theorem C7_generated_invoice_filename (env : Env) (w : World) (user_id : Uuid)
    (expense : ExpenseCreate) (f : UploadFile)
    (hname : f.filename ≠ "") (hw : env.writeOk = true)
    (hdot : extsep ∉ env.gen.data) (hsep : pathsep ∉ env.gen.data)
    (hne : env.gen ≠ "")
    (hfresh : env.gen.data ≠ (splitext f.filename.data).1) :
    (create_expense env w user_id expense (some f)).1 =
      .ok { expenses_id := env.newId, user_id := user_id,
            category_id := expense.category_id, subject := expense.subject,
            expense_date := expense.expense_date, amount := expense.amount,
            reimbursable := expense.reimbursable, description := expense.description,
            invoice_image := some (env.gen ++ String.mk (splitext f.filename.data).2),
            employee := expense.employee, updated_at := env.now } ∧
    env.gen ++ String.mk (splitext f.filename.data).2 ≠ f.filename ∧
    (splitext (env.gen ++ String.mk (splitext f.filename.data).2).data).2 =
      (splitext f.filename.data).2 := by
  have hdata : (env.gen ++ String.mk (splitext f.filename.data).2).data =
      env.gen.data ++ (splitext f.filename.data).2 := String.data_append _ _
  refine ⟨?_, ?_, ?_⟩
  · unfold create_expense
    simp [hname, hw]
  · intro heq
    apply hfresh
    have hd := congrArg String.data heq
    rw [hdata] at hd
    exact List.append_cancel_right
      (hd.trans (splitext_fst_append_snd f.filename.data).symm)
  · rw [hdata, splitext_gen_append env.gen.data (splitext f.filename.data).2 hdot hsep
      (fun h0 => hne (congrArg String.mk h0)) (splitext_snd_shape f.filename.data)]

/-- Witness for C7: uploading `photo.png` with uuid4 text `f47ac10b` stores
`f47ac10b.png`. -/
theorem C7_generated_invoice_filename_witness :
    (create_expense { gen := "f47ac10b", newId := 7, now := 100, writeOk := true } wC3 5
        { category_id := 3, subject := "Flight", expense_date := 0, amount := 250,
          reimbursable := false, description := none, employee := none }
        (some { filename := "photo.png" })).1 =
      .ok { expenses_id := 7, user_id := 5, category_id := 3, subject := "Flight",
            expense_date := 0, amount := 250, reimbursable := false, description := none,
            invoice_image := some ("f47ac10b" ++ String.mk (splitext "photo.png".data).2),
            employee := none, updated_at := 100 } ∧
    "f47ac10b" ++ String.mk (splitext "photo.png".data).2 ≠ "photo.png" ∧
    (splitext ("f47ac10b" ++ String.mk (splitext "photo.png".data).2).data).2 =
      (splitext "photo.png".data).2 :=
  C7_generated_invoice_filename
    { gen := "f47ac10b", newId := 7, now := 100, writeOk := true } wC3 5
    { category_id := 3, subject := "Flight", expense_date := 0, amount := 250,
      reimbursable := false, description := none, employee := none }
    { filename := "photo.png" }
    (by decide) rfl (by decide) (by decide) (by decide) (by decide)

end Codeaza
